import Mathlib

/-!
Verification of `create_icons.py`, the icon generator of the URL-Notes
repository.

The script computes rectangle geometry with Python integers and draws the
shapes with Pillow.  The embedding below mirrors the source:

* Python `//` is floor division, embedded as `Int.fdiv`.
* Python `int(x * 0.8)` (and `* 0.3`, `* 0.7`, `* 0.15`) truncates the
  float product toward zero.  The factors 0.8, 0.3, 0.7, 0.15 are the
  rationals 4/5, 3/10, 7/10, 3/20 up to a relative error below 2^-52, so
  for every operand in the range reachable here the truncated double equals
  the truncation of the exact rational product: the products are spaced at
  least 1/20 away from the next integer unless they are exact integers, in
  which case the correctly rounded double is that integer.  Hence
  `int(n * 0.8)` is embedded as `Int.tdiv (n * 4) 5`, and so on.
* A drawn bitmap is a list of fill operations; the color of a pixel is the
  fill of the last operation covering it, defaulting to transparent.
* Pillow's `ImageDraw.rounded_rectangle` raises `ValueError` when `x1 < x0`
  or `y1 < y0`; `ImageDraw.rectangle` performs no such check (inverted
  coordinates are swapped in the C rasterizer).  The model keeps that
  error branch, so `create_icon` returns `Except String Bitmap`.
-/

namespace CreateIcons

/-- RGBA color value. -/
structure Color where
  r : Nat
  g : Nat
  b : Nat
  a : Nat
deriving DecidableEq

/-- The fully transparent background pixel of a fresh RGBA image. -/
def transparent : Color := ⟨0, 0, 0, 0⟩

/-- Fill color `(0, 122, 255, 255)` used for the badge and the accent lines. -/
def iosBlue : Color := ⟨0, 122, 255, 255⟩

/-- Fill color `(255, 255, 255, 255)` of the note card. -/
def noteWhite : Color := ⟨255, 255, 255, 255⟩

/-- Source: `margin = max(1, size // 8)`. -/
def margin (size : Int) : Int := max 1 (Int.fdiv size 8)

/-- Source: `radius = max(2, size // 6)` of the rounded badge rectangle. -/
def badge_radius (size : Int) : Int := max 2 (Int.fdiv size 6)

/-- Source: `note_margin = max(2, size // 4)`. -/
def note_margin (size : Int) : Int := max 2 (Int.fdiv size 4)

/-- Source: `note_width = size - (note_margin * 2)`. -/
def note_width (size : Int) : Int := size - note_margin size * 2

/-- Source: `note_height = int(note_width * 0.8)`, truncation toward zero. -/
def note_height (size : Int) : Int := Int.tdiv (note_width size * 4) 5

/-- Source: `note_x = note_margin`. -/
def note_x (size : Int) : Int := note_margin size

/-- Source: `note_y = (size - note_height) // 2`. -/
def note_y (size : Int) : Int := Int.fdiv (size - note_height size) 2

/-- Source: `line_height = max(1, size // 16)`. -/
def line_height (size : Int) : Int := max 1 (Int.fdiv size 16)

/-- Source: `line_spacing = max(2, size // 8)`. -/
def line_spacing (size : Int) : Int := max 2 (Int.fdiv size 8)

/-- Source: `line_width = int(note_width * 0.7)`. -/
def line_width (size : Int) : Int := Int.tdiv (note_width size * 7) 10

/-- Source: `line_x = note_x + int(note_width * 0.15)`. -/
def line_x (size : Int) : Int := note_x size + Int.tdiv (note_width size * 3) 20

/-- Source: `line_y = note_y + int(note_height * 0.3) + (i * line_spacing)`. -/
def line_y (size : Int) (i : Nat) : Int :=
  note_y size + Int.tdiv (note_height size * 3) 10 + (i : Int) * line_spacing size

/-- Source: the guard `line_y + line_height < note_y + note_height` deciding
whether accent line `i` is drawn. -/
def lineFits (size : Int) (i : Nat) : Bool :=
  decide (line_y size i + line_height size < note_y size + note_height size)

/-- A shape passed to a fill operation: an axis-aligned rectangle (inclusive
corner coordinates, Pillow convention) or a rounded rectangle. -/
inductive Shape where
  | rect (x0 y0 x1 y1 : Int)
  | rrect (x0 y0 x1 y1 radius : Int)
deriving DecidableEq

/-- One drawing operation: fill `shape` with `fill`. -/
structure Op where
  shape : Shape
  fill : Color
deriving DecidableEq

/-- An in-memory RGBA image: its dimensions and the fill operations applied
to it, in drawing order. -/
structure Bitmap where
  width : Int
  height : Int
  ops : List Op
deriving DecidableEq

/-- Membership of the pixel `(x, y)` in the closed disc of the given radius
around `(cx, cy)`; used for the rounded corners. -/
def inDisc (cx cy radius x y : Int) : Bool :=
  decide ((x - cx) * (x - cx) + (y - cy) * (y - cy) ≤ radius * radius)

/-- Pixel coverage of a shape.  A plain rectangle covers its bounding box
with coordinates swapped when inverted, as Pillow's C rasterizer does.  A
rounded rectangle covers the two central bands plus the four corner discs;
every covered pixel lies inside the rectangle `[x0, y0]` to `[x1, y1]`. -/
def Shape.covers : Shape → Int → Int → Bool
  | .rect x0 y0 x1 y1, x, y =>
    decide (min x0 x1 ≤ x) && decide (x ≤ max x0 x1) &&
    decide (min y0 y1 ≤ y) && decide (y ≤ max y0 y1)
  | .rrect x0 y0 x1 y1 radius, x, y =>
    decide (x0 ≤ x) && decide (x ≤ x1) && decide (y0 ≤ y) && decide (y ≤ y1) &&
    ((decide (x0 + radius ≤ x) && decide (x ≤ x1 - radius)) ||
     (decide (y0 + radius ≤ y) && decide (y ≤ y1 - radius)) ||
     inDisc (x0 + radius) (y0 + radius) radius x y ||
     inDisc (x1 - radius) (y0 + radius) radius x y ||
     inDisc (x0 + radius) (y1 - radius) radius x y ||
     inDisc (x1 - radius) (y1 - radius) radius x y)

/-- The color of pixel `(x, y)`: the fill of the last operation covering it,
transparent when none does (the image starts fully transparent). -/
def pixel (b : Bitmap) (x y : Int) : Color :=
  b.ops.foldl (fun c op => if op.shape.covers x y then op.fill else c) transparent

/-- Model of `ImageDraw.rounded_rectangle`: Pillow validates the coordinate
order and raises `ValueError` on inverted coordinates; otherwise the fill
operation is recorded. -/
def rounded_rectangle (x0 y0 x1 y1 radius : Int) (fill : Color) :
    Except String Op :=
  if x1 < x0 then .error "x1 must be greater than or equal to x0"
  else if y1 < y0 then .error "y1 must be greater than or equal to y0"
  else .ok ⟨.rrect x0 y0 x1 y1 radius, fill⟩

/-- The badge operation recorded on success: the rounded blue rectangle
`[margin, margin, size - margin, size - margin]`. -/
def badge_op (size : Int) : Op :=
  ⟨.rrect (margin size) (margin size) (size - margin size) (size - margin size)
    (badge_radius size), iosBlue⟩

/-- The white note-card operation:
`draw.rectangle([note_x, note_y, note_x + note_width, note_y + note_height])`. -/
def note_op (size : Int) : Op :=
  ⟨.rect (note_x size) (note_y size) (note_x size + note_width size)
    (note_y size + note_height size), noteWhite⟩

/-- The accent-line rectangle for line index `i`:
`draw.rectangle([line_x, line_y, line_x + line_width, line_y + line_height])`. -/
def line_rect (size : Int) (i : Nat) : Op :=
  ⟨.rect (line_x size) (line_y size i) (line_x size + line_width size)
    (line_y size i + line_height size), iosBlue⟩

/-- The accent-line operations: the source loops `for i in range(3)` under
`if size >= 32`, drawing line `i` exactly when the fit guard holds and
continuing with the next index otherwise. -/
def note_lines (size : Int) : List Op :=
  if 32 ≤ size then
    ((List.range 3).filter (lineFits size)).map (line_rect size)
  else []

/-- The bitmap produced by a successful run of `create_icon`. -/
def icon_bitmap (size : Int) : Bitmap :=
  ⟨size, size, [badge_op size, note_op size] ++ note_lines size⟩

/-- Embedding of `create_icon(size)`: a fresh transparent `size × size`
image, the rounded badge rectangle (whose coordinate validation can fail),
the white note card, then the accent lines. -/
def create_icon (size : Int) : Except String Bitmap := do
  let m := margin size
  let badge ← rounded_rectangle m m (size - m) (size - m) (badge_radius size) iosBlue
  return ⟨size, size, [badge, note_op size] ++ note_lines size⟩

/-- The accent-line operations of a produced bitmap: everything drawn after
the badge and the note card. -/
def accent_ops (b : Bitmap) : List Op := b.ops.drop 2

/-- Source: `icons_dir = os.path.join('extension', 'assets', 'icons')`,
as a list of path components. -/
def icons_dir : List String := ["extension", "assets", "icons"]

/-- Source: the fixed size list `[16, 32, 48, 128]` of `main`. -/
def sizes : List Nat := [16, 32, 48, 128]

/-- Source: the file name `icon{size}.png`. -/
def icon_file_name (size : Nat) : String :=
  "icon" ++ toString size ++ ".png"

/-- The path `os.path.join(icons_dir, icon{size}.png)` as components. -/
def icon_path (size : Nat) : List String := icons_dir ++ [icon_file_name size]

/-- Per-size outcome reported by `main`: the success or failure message for
one icon file. -/
inductive Report where
  | created (file : String)
  | failed (file : String)
deriving DecidableEq

/-- One iteration of the loop in `main`: the `try` block generates the icon
and saves it; any exception (from generation or from `icon.save`, the
latter modelled by the oracle `save_ok` on the target path) is caught and
reported for this size only. -/
def process_size (save_ok : List String → Bool) (size : Nat) : Report :=
  match create_icon (size : Int) with
  | .error _ => .failed (icon_file_name size)
  | .ok _ =>
    if save_ok (icon_path size) then .created (icon_file_name size)
    else .failed (icon_file_name size)

/-- The loop of `main`: every size of the fixed list is processed in order,
regardless of earlier failures. -/
def main_reports (save_ok : List String → Bool) : List Report :=
  sizes.map (process_size save_ok)

/-- Modelled from the spec: `note_height = floor(note_width · 0.8)` — the
spec states the float truncation as a floor, `Int.fdiv`. -/
def spec_note_height (size : Int) : Int := Int.fdiv (note_width size * 4) 5

/-- Modelled from the spec: `note_y = floor((size - note_height) / 2)` with
the spec's floor-based `note_height`. -/
def spec_note_y (size : Int) : Int := Int.fdiv (size - spec_note_height size) 2

/-- Decides that all four corner pixels of the generated bitmap are fully
transparent; `false` when generation fails. -/
def corners_transparent (size : Int) : Bool :=
  match create_icon size with
  | .ok b =>
    decide (pixel b 0 0 = transparent) &&
    decide (pixel b 0 (size - 1) = transparent) &&
    decide (pixel b (size - 1) 0 = transparent) &&
    decide (pixel b (size - 1) (size - 1) = transparent)
  | .error _ => false

/-- Helper: for `2 ≤ size` the badge margin satisfies `2 * margin ≤ size`,
so the rounded-rectangle coordinates are well ordered. -/
theorem margin_mul_two_le {size : Int} (h : 2 ≤ size) :
    margin size * 2 ≤ size := by
  unfold margin
  rw [Int.fdiv_eq_ediv _ (by norm_num)]
  omega

/-- Helper: for `2 ≤ size`, `create_icon` takes no error branch and returns
the bitmap `icon_bitmap size`. -/
theorem create_icon_ok_aux {size : Int} (h : 2 ≤ size) :
    create_icon size = .ok (icon_bitmap size) := by
  have hm := margin_mul_two_le h
  have hcond : ¬(size - margin size < margin size) := by omega
  unfold create_icon rounded_rectangle icon_bitmap badge_op
  simp only [hcond, if_false]
  rfl

/-- Helper: for `4 ≤ size` the note width is nonnegative. -/
theorem note_width_nonneg {size : Int} (h : 4 ≤ size) :
    0 ≤ note_width size := by
  unfold note_width note_margin
  rw [Int.fdiv_eq_ediv _ (by norm_num)]
  omega

/-- Helper: any bitmap returned by `create_icon` is `icon_bitmap size`. -/
theorem create_icon_ok_inv {size : Int} {b : Bitmap}
    (h : create_icon size = .ok b) : b = icon_bitmap size := by
  unfold create_icon rounded_rectangle at h
  by_cases hx : size - margin size < margin size
  · simp [hx] at h
  · simp [hx] at h
    exact h.symm

/-- C1 counterexample: at `size = 128` the fit condition fails for line
index `i = 2` (`line_y + line_height = 93` is not below
`note_y + note_height = 89`), and the generated bitmap contains 2 accent
lines, not 3. -/
theorem icon128_third_line_does_not_fit :
    lineFits 128 2 = false ∧
    (create_icon 128).toOption.map (fun b => (accent_ops b).length) = some 2 := by
  decide

/-- C1 amended: for `size = 128` the fit condition holds for line indices 0
and 1 and fails for index 2, so exactly 2 distinct blue line bands (rows
53–61 and 69–77) appear inside the white note-card area (the rectangle
`[32, 38]` to `[96, 89]`); a vertical probe at `x = 50` meets blue, then
white between the bands, then blue again. -/
theorem icon128_exactly_two_accent_lines :
    lineFits 128 0 = true ∧ lineFits 128 1 = true ∧ lineFits 128 2 = false ∧
    (create_icon 128).toOption.map accent_ops =
      some [⟨.rect 41 53 85 61, iosBlue⟩, ⟨.rect 41 69 85 77, iosBlue⟩] ∧
    note_op 128 = ⟨.rect 32 38 96 89, noteWhite⟩ ∧
    (create_icon 128).toOption.map (fun b => (pixel b 50 57, pixel b 50 65, pixel b 50 73)) =
      some (iosBlue, noteWhite, iosBlue) := by
  decide

/-- C2 counterexample: at `size = 1` the badge margin is 1 and the rounded
rectangle gets the coordinates `[1, 1, 0, 0]`, so the coordinate-order
validation fails and `create_icon` raises instead of returning a bitmap. -/
theorem create_icon_size_one_errors :
    create_icon 1 = .error "x1 must be greater than or equal to x0" := rfl

/-- C2 amended: for every size at least 2 the geometry computation takes no
error branch — `create_icon` returns the populated bitmap `icon_bitmap
size` (badge, note card, accent lines). -/
theorem create_icon_no_error_of_two_le (size : Int) (h : 2 ≤ size) :
    create_icon size = .ok (icon_bitmap size) :=
  create_icon_ok_aux h

/-- C2 witness: the amended theorem applied at `size = 5`. -/
theorem create_icon_no_error_of_two_le_witness :
    2 ≤ (5 : Int) ∧ create_icon 5 = .ok (icon_bitmap 5) :=
  ⟨by decide, create_icon_no_error_of_two_le 5 (by decide)⟩

/-- C3 counterexample: the output directory of the batch driver is not
`assets/icons`; the source joins `extension`, `assets`, `icons`. -/
theorem icons_dir_not_assets_icons : icons_dir ≠ ["assets", "icons"] := by
  decide

/-- C3 amended: the batch driver writes exactly the four files
`icon16.png`, `icon32.png`, `icon48.png`, `icon128.png`, into the
directory `extension/assets/icons` relative to the working directory. -/
theorem batch_output_paths :
    sizes.map icon_file_name =
      ["icon16.png", "icon32.png", "icon48.png", "icon128.png"] ∧
    sizes.map icon_path =
      [["extension", "assets", "icons", "icon16.png"],
       ["extension", "assets", "icons", "icon32.png"],
       ["extension", "assets", "icons", "icon48.png"],
       ["extension", "assets", "icons", "icon128.png"]] := by
  decide

/-- C4 counterexample: at `size = 2` the note width is `-2`; Python
`int(-2 * 0.8)` truncates toward zero giving `-1`, while the claimed floor
formula gives `-2`, and the derived `note_y` values differ as well. -/
theorem note_height_not_floor_at_two :
    note_height 2 = -1 ∧ spec_note_height 2 = -2 ∧
    note_height 2 ≠ spec_note_height 2 ∧
    note_y 2 = 1 ∧ spec_note_y 2 = 2 := by
  decide

/-- C4 amended: for every size at least 4 (where the note width is
nonnegative, so truncation toward zero agrees with floor) all the claimed
layout formulas hold, and the white note rectangle spans `[note_x, note_y]`
to `[note_x + note_width, note_y + note_height]`. -/
theorem layout_formulas_of_four_le (size : Int) (h : 4 ≤ size) :
    margin size = max 1 (Int.fdiv size 8) ∧
    badge_radius size = max 2 (Int.fdiv size 6) ∧
    note_margin size = max 2 (Int.fdiv size 4) ∧
    note_width size = size - 2 * note_margin size ∧
    note_height size = spec_note_height size ∧
    note_x size = note_margin size ∧
    note_y size = spec_note_y size ∧
    note_op size = ⟨.rect (note_x size) (note_y size)
      (note_x size + note_width size) (note_y size + note_height size),
      noteWhite⟩ := by
  have hw := note_width_nonneg h
  have hnh : note_height size = spec_note_height size := by
    unfold note_height spec_note_height
    rw [Int.tdiv_eq_ediv (by omega) (by norm_num),
      Int.fdiv_eq_ediv _ (by norm_num)]
  refine ⟨rfl, rfl, rfl, by unfold note_width; ring, hnh, rfl, ?_, rfl⟩
  unfold note_y spec_note_y
  rw [hnh]

/-- C4 witness: the amended theorem applied at `size = 7`. -/
theorem layout_formulas_of_four_le_witness :
    4 ≤ (7 : Int) ∧
    (margin 7 = max 1 (Int.fdiv 7 8) ∧
     badge_radius 7 = max 2 (Int.fdiv 7 6) ∧
     note_margin 7 = max 2 (Int.fdiv 7 4) ∧
     note_width 7 = 7 - 2 * note_margin 7 ∧
     note_height 7 = spec_note_height 7 ∧
     note_x 7 = note_margin 7 ∧
     note_y 7 = spec_note_y 7 ∧
     note_op 7 = ⟨.rect (note_x 7) (note_y 7)
       (note_x 7 + note_width 7) (note_y 7 + note_height 7), noteWhite⟩) :=
  ⟨by decide, layout_formulas_of_four_le 7 (by decide)⟩

/-- C5: for any bitmap returned by `create_icon`, the accent lines are
exactly the rectangles `line_rect` of the indices `i < 3` satisfying the
fit condition when `32 ≤ size` — a non-fitting line is skipped without
aborting the loop — and no accent line at all when `size < 32`. -/
theorem accent_line_loop (size : Int) (b : Bitmap)
    (h : create_icon size = .ok b) :
    accent_ops b =
      if 32 ≤ size then
        ((List.range 3).filter (lineFits size)).map (line_rect size)
      else [] := by
  rw [create_icon_ok_inv h]
  rfl

/-- C5 witness: the theorem applied at `size = 48` with its bitmap. -/
theorem accent_line_loop_witness :
    accent_ops (icon_bitmap 48) =
      if 32 ≤ (48 : Int) then
        ((List.range 3).filter (lineFits 48)).map (line_rect 48)
      else [] :=
  accent_line_loop 48 (icon_bitmap 48) rfl

/-- C6: at every supported size of at least 32 — that is 32, 48 and 128 —
lines 0 and 1 fit, line 2 does not, and exactly 2 accent lines are drawn. -/
theorem supported_sizes_draw_two_lines :
    (lineFits 32 0 = true ∧ lineFits 32 1 = true ∧ lineFits 32 2 = false ∧
      (create_icon 32).toOption.map (fun b => (accent_ops b).length) = some 2) ∧
    (lineFits 48 0 = true ∧ lineFits 48 1 = true ∧ lineFits 48 2 = false ∧
      (create_icon 48).toOption.map (fun b => (accent_ops b).length) = some 2) ∧
    (lineFits 128 0 = true ∧ lineFits 128 1 = true ∧ lineFits 128 2 = false ∧
      (create_icon 128).toOption.map (fun b => (accent_ops b).length) = some 2) := by
  decide

/-- C7: for every supported size the four corner pixels of the generated
bitmap are fully transparent: the badge bounding box is inset by the
margin, so no drawing operation covers a corner. -/
theorem corner_pixels_transparent :
    corners_transparent 16 = true ∧ corners_transparent 32 = true ∧
    corners_transparent 48 = true ∧ corners_transparent 128 = true := by
  decide

/-- C8: for every supported size the generated bitmap has width and height
exactly equal to the requested size. -/
theorem bitmap_dimensions_match :
    (create_icon 16).toOption.map (fun b => (b.width, b.height)) = some (16, 16) ∧
    (create_icon 32).toOption.map (fun b => (b.width, b.height)) = some (32, 32) ∧
    (create_icon 48).toOption.map (fun b => (b.width, b.height)) = some (48, 48) ∧
    (create_icon 128).toOption.map (fun b => (b.width, b.height)) = some (128, 128) := by
  decide

/-- C9: whatever saving succeeds or fails, the batch driver processes every
size of the fixed ordered list `[16, 32, 48, 128]`, reporting per size:
one report per size, in order, success or failure decided independently
for each size — no abort, no retry. -/
theorem batch_driver_continues (save_ok : List String → Bool) :
    main_reports save_ok =
      [if save_ok (icon_path 16) then .created "icon16.png" else .failed "icon16.png",
       if save_ok (icon_path 32) then .created "icon32.png" else .failed "icon32.png",
       if save_ok (icon_path 48) then .created "icon48.png" else .failed "icon48.png",
       if save_ok (icon_path 128) then .created "icon128.png" else .failed "icon128.png"] :=
  rfl

/-- C9 witness: with an oracle failing exactly on the `icon48.png` path,
the driver reports that one failure and still creates the other three
icons — partial success is a reachable terminal state. -/
theorem batch_driver_continues_witness :
    main_reports (fun p => decide (p ≠ icon_path 48)) =
      [.created "icon16.png", .created "icon32.png",
       .failed "icon48.png", .created "icon128.png"] := by
  rw [batch_driver_continues]
  decide

/-- C10: across the fixed size set in increasing order, the badge margin,
the note margin, the note width and the note height are non-decreasing. -/
theorem layout_monotone_on_size_set :
    (margin 16 ≤ margin 32 ∧ margin 32 ≤ margin 48 ∧ margin 48 ≤ margin 128) ∧
    (note_margin 16 ≤ note_margin 32 ∧ note_margin 32 ≤ note_margin 48 ∧
      note_margin 48 ≤ note_margin 128) ∧
    (note_width 16 ≤ note_width 32 ∧ note_width 32 ≤ note_width 48 ∧
      note_width 48 ≤ note_width 128) ∧
    (note_height 16 ≤ note_height 32 ∧ note_height 32 ≤ note_height 48 ∧
      note_height 48 ≤ note_height 128) := by
  decide

end CreateIcons
